import Mathlib

/-!
Verification of the ActionFlow conversation-orchestration core.

Shallow embedding of the routing, slot-filling, selection/confirmation
and escalation logic found in:
  backend/app/agents/supervisor.py
  backend/app/agents/action_agent.py
  backend/app/agents/intent_sharpener.py
  backend/app/core/escalation.py
  backend/app/core/orchestrator.py
  backend/app/core/schemas.py
Messages are a tagged union of user / assistant / tool-result messages;
Python dicts become structures with `Option` fields; external LLM calls
become explicit oracle arguments.
-/

namespace ActionFlow

/-! ## Messages (langchain HumanMessage / AIMessage / ToolMessage) -/

/-- A conversation message.  `assistant` carries whether the message holds
tool calls (`AIMessage.tool_calls` non-empty in the source). -/
inductive Message where
  | user (content : String)
  | assistant (content : String) (tool_calls : Bool)
  | tool (content : String)
deriving DecidableEq

/-- The `content` attribute, present on every langchain message class. -/
def Message.content : Message → String
  | .user c => c
  | .assistant c _ => c
  | .tool c => c

/-- `isinstance(msg, HumanMessage)` in the source. -/
def Message.isUser : Message → Bool
  | .user _ => true
  | _ => false

/-- `msg.type == 'tool'` or `msg.__class__.__name__ == 'ToolMessage'` in the
source: both single out tool-result messages. -/
def Message.isTool : Message → Bool
  | .tool _ => true
  | _ => false

/-- `hasattr(msg, 'tool_calls') and msg.tool_calls`: only AI messages carry a
`tool_calls` attribute. -/
def Message.hasToolCalls : Message → Bool
  | .assistant _ tc => tc
  | _ => false

/-! ## Python string helpers

The source lowercases with `str.lower()` and tests substrings with `in`.
`py_lower_char` covers ASCII plus the single-codepoint Turkish uppercase
letters, which is exactly the alphabet of every keyword table in the
source. -/

/-- Character-wise model of `str.lower()` on the alphabets the detectors
use (ASCII letters and the Turkish letters appearing in the keyword
lists). -/
def py_lower_char (c : Char) : Char :=
  if c.isUpper then c.toLower
  else if c = 'Ü' then 'ü'
  else if c = 'Ö' then 'ö'
  else if c = 'Ç' then 'ç'
  else if c = 'Ş' then 'ş'
  else if c = 'Ğ' then 'ğ'
  else c

/-- Model of `str.lower()`. -/
def py_lower (s : String) : String := String.mk (s.data.map py_lower_char)

/-- Does `pat` occur as a contiguous sub-list of the second argument? -/
def contains_sub_aux (pat : List Char) : List Char → Bool
  | [] => pat.isEmpty
  | c :: rest => pat.isPrefixOf (c :: rest) || contains_sub_aux pat rest

/-- Model of the Python membership test `pat in hay` on strings. -/
def py_in (pat hay : String) : Bool := contains_sub_aux pat.toList hay.toList

/-- Python slice `l[-n:]`. -/
def take_last {α : Type} (n : Nat) (l : List α) : List α :=
  l.drop (l.length - n)

/-- First user message's content when scanning a list front to back (the
source scans `reversed(slice)` and stops at the first `HumanMessage`). -/
def first_user_content (l : List Message) : Option String :=
  (l.find? Message.isUser).map Message.content

/-! ## Selection and confirmation detectors (action_agent.py) -/

/-- Result of `_detect_user_selection`. -/
inductive Selection where
  | number (value : Nat)
  | ordinal (value : Nat)
  | preference (value : Nat)
deriving DecidableEq

/-- Word characters of the regex `\b` boundary (ASCII approximation of
`\w`, exact on every keyword the detectors use). -/
def is_word_char (c : Char) : Bool := c.isAlphanum || c = '_'

/-- Is there no word character just before the current position? -/
def no_word_before : Option Char → Bool
  | none => true
  | some p => !is_word_char p

/-- Is there no word character right after the current position? -/
def no_word_head : List Char → Bool
  | [] => true
  | r :: _ => !is_word_char r

/-- Model of `re.search(r'\b([1-5])\b', content)`: leftmost digit 1-5 with
word boundaries on both sides. -/
def find_number_sel : Option Char → List Char → Option Nat
  | _, [] => none
  | prev, c :: rest =>
    if ('1'.toNat ≤ c.toNat && c.toNat ≤ '5'.toNat)
        && no_word_before prev && no_word_head rest then
      some (c.toNat - '0'.toNat)
    else
      find_number_sel (some c) rest

/-- The `ordinal_map` dict of `_detect_user_selection`, in insertion
order. -/
def ordinal_map : List (String × Nat) :=
  [("first", 1), ("second", 2), ("third", 3), ("fourth", 4), ("fifth", 5),
   ("ilk", 1), ("birinci", 1), ("ikinci", 2), ("ucuncu", 3), ("dorduncu", 4),
   ("1.", 1), ("2.", 2), ("3.", 3)]

/-- The chained `str.replace` calls normalizing Turkish diacritics
(`ü→u, ö→o, ç→c, ı→i`). -/
def normalize_tr_char (c : Char) : Char :=
  if c = 'ü' then 'u'
  else if c = 'ö' then 'o'
  else if c = 'ç' then 'c'
  else if c = 'ı' then 'i'
  else c

/-- Diacritic-normalized content (`content_normalized` in the source). -/
def normalize_tr (s : String) : String := String.mk (s.data.map normalize_tr_char)

/-- First ordinal-table entry occurring in the content or in its
normalized form. -/
def find_ordinal (content : String) : Option Nat :=
  (ordinal_map.find? fun p =>
      py_in p.1 content || py_in p.1 (normalize_tr content)).map fun p => p.2

/-- The "cheapest / first one" phrase list of `_detect_user_selection`. -/
def preference_keywords : List String :=
  ["cheapest", "en ucuz", "ucuz olan", "first one", "ilk"]

/-- The per-message body of `_detect_user_selection`: number match, else
ordinal-table match, else preference phrase, else none.  The argument is
the already lowercased content. -/
def selection_in_content (content : String) : Option Selection :=
  match find_number_sel none content.toList with
  | some n => some (Selection.number n)
  | none =>
    match find_ordinal content with
    | some n => some (Selection.ordinal n)
    | none =>
      if preference_keywords.any (fun k => py_in k content) then
        some (Selection.preference 1)
      else
        none

/-- `_detect_user_selection`: scan the last 3 messages in reverse, act only
on the first user message found, then stop. -/
def detect_user_selection (messages : List Message) : Option Selection :=
  match first_user_content ((take_last 3 messages).reverse) with
  | none => none
  | some raw => selection_in_content (py_lower raw)

/-- The bilingual affirmative phrase list of `_detect_user_confirmation`. -/
def confirm_keywords : List String :=
  ["yes", "yeah", "yep", "sure", "ok", "okay", "confirm", "book it",
   "go ahead", "proceed", "do it", "please book", "make the booking",
   "let's do it", "sounds good", "perfect", "great",
   "evet", "tamam", "olur", "onayla", "rezerve et", "ayır",
   "yap", "devam", "kesinlikle", "tabi", "rezervasyon yap"]

/-- `_detect_user_confirmation`: scan the last 2 messages in reverse, act
only on the first user message found. -/
def detect_user_confirmation (messages : List Message) : Bool :=
  match first_user_content ((take_last 2 messages).reverse) with
  | none => false
  | some raw => confirm_keywords.any fun k => py_in k (py_lower raw)

/-! ## Action phase determination (action_agent.py, determine_phase) -/

/-- The `ActionPhase` constants of the action agent. -/
inductive ActionPhase where
  | search
  | present
  | confirm
  | book
  | complete
deriving DecidableEq

/-- `determine_phase`: pure function of the message history and the
completed-task ledger, translated clause by clause from the source. -/
def determine_phase (messages : List Message) (completed_tasks : List String) :
    ActionPhase :=
  if messages.isEmpty then .search
  else if completed_tasks.contains "booking_completed" then .complete
  else if detect_user_confirmation messages
      && completed_tasks.contains "selection_presented" then .book
  else if (detect_user_selection messages).isSome
      && completed_tasks.contains "results_presented" then .confirm
  else if completed_tasks.contains "search_initiated"
      && !completed_tasks.contains "results_presented" then .present
  else if completed_tasks.contains "results_presented"
      && !(detect_user_selection messages).isSome then .present
  else .search

/-- First-match evaluation of a guarded rule list (the spec's
"precedence-ordered, first match wins"). -/
def first_match : List (Bool × ActionPhase) → ActionPhase → ActionPhase
  | [], d => d
  | (c, p) :: rest, d => if c then p else first_match rest d

/-- The seven precedence rules of the spec, as a guard/result table over
the same detectors. -/
def determine_phase_rules (messages : List Message)
    (completed_tasks : List String) : List (Bool × ActionPhase) :=
  [(messages.isEmpty, .search),
   (completed_tasks.contains "booking_completed", .complete),
   (detect_user_confirmation messages
      && completed_tasks.contains "selection_presented", .book),
   ((detect_user_selection messages).isSome
      && completed_tasks.contains "results_presented", .confirm),
   (completed_tasks.contains "search_initiated"
      && !completed_tasks.contains "results_presented", .present),
   (completed_tasks.contains "results_presented"
      && !(detect_user_selection messages).isSome, .present)]

/-! ## Conversation state and supervisor routing (schemas.py, supervisor.py) -/

/-- The `ConversationState` enum of schemas.py. -/
inductive ConversationState where
  | idle
  | sharpening
  | ready_for_action
  | action
  | info
  | completed
  | escalation
deriving DecidableEq

/-- The slice of `AgentState` the supervisor reads: message history,
finite-state-machine state, plan flag and the completed-task ledger. -/
structure AgentState where
  messages : List Message
  current_state : ConversationState
  previous_state : Option ConversationState := none
  plan_ready : Bool := false
  completed_tasks : List String := []
deriving DecidableEq

/-- Parsed JSON of the supervisor's intent-classification LLM call.
`none` models a `json.JSONDecodeError` / `KeyError`. -/
structure IntentResult where
  category : String
  has_destination : Bool
  has_dates : Bool
deriving DecidableEq

/-- The partial state update a supervisor invocation returns.  An `Option`
field is `none` when the corresponding dict key is absent from the
returned patch. -/
structure SupervisorPatch where
  next_agent : String
  current_state : ConversationState
  completed_tasks : Option (List String) := none
  plan_ready : Option Bool := none
  intent_category : Option String := none
deriving DecidableEq

/-- The supervisor's scan for the latest user message
(`for msg in reversed(messages): if isinstance(msg, HumanMessage)`). -/
def last_user_message (messages : List Message) : Option String :=
  first_user_content messages.reverse

/-- `last_ai_has_content` in the supervisor's ACTION branch: the latest
message has truthy content and no truthy `tool_calls` attribute.  NOTE:
the source checks these attributes on whatever the last message is, user
and tool messages included, not only on AI messages. -/
def last_message_has_plain_content (messages : List Message) : Bool :=
  match messages.getLast? with
  | none => false
  | some m => m.content ≠ "" && !m.hasToolCalls

/-- The ACTION branch of `supervisor_node`, clause by clause. -/
def supervisor_action_branch (messages : List Message)
    (completed_tasks : List String) : SupervisorPatch :=
  if completed_tasks.contains "results_presented" then
    { next_agent := "end", current_state := .action }
  else
    let has_tool_results := (take_last 5 messages).any Message.isTool
    let last_ai_has_content := last_message_has_plain_content messages
    if has_tool_results && !last_ai_has_content then
      { next_agent := "action", current_state := .action }
    else if completed_tasks.contains "action_completed" && last_ai_has_content then
      { next_agent := "end", current_state := .completed }
    else
      { next_agent := "action", current_state := .action }

/-- The IDLE branch of `supervisor_node`: classify the latest user message
via the LLM oracle; parse failure defaults to the sharpener. -/
def supervisor_idle_branch (intent : Option IntentResult) : SupervisorPatch :=
  match intent with
  | some r =>
    if r.category = "REACTIVE" && r.has_destination && r.has_dates then
      { next_agent := "action", current_state := .action,
        intent_category := some "REACTIVE", plan_ready := some true }
    else if r.category = "INFO" then
      { next_agent := "info", current_state := .info,
        intent_category := some "INFO" }
    else
      { next_agent := "sharpener", current_state := .sharpening,
        intent_category := some "PLANNING" }
  | none =>
    { next_agent := "sharpener", current_state := .sharpening }

/-- The COMPLETED branch of `supervisor_node`: a "book another" message
routes back to the action agent and emits an empty `completed_tasks`
patch (the in-source comment reads "Reset"). -/
def supervisor_completed_branch (lum : String) : SupervisorPatch :=
  if py_in "another" (py_lower lum) || py_in "else" (py_lower lum) then
    { next_agent := "action", current_state := .action,
      completed_tasks := some [] }
  else
    { next_agent := "end", current_state := .completed }

/-- `supervisor_node` (supervisor.py).  `intent` is the oracle for the
intent-classification LLM call of the IDLE branch; the sentiment-based
escalation block of the source is commented out and therefore absent. -/
def supervisor_node (state : AgentState) (intent : Option IntentResult) :
    SupervisorPatch :=
  match last_user_message state.messages with
  | none => { next_agent := "end", current_state := .idle }
  | some lum =>
    match state.current_state with
    | .idle => supervisor_idle_branch intent
    | .sharpening =>
      if state.plan_ready then
        { next_agent := "action", current_state := .action,
          plan_ready := some true }
      else
        { next_agent := "sharpener", current_state := .sharpening }
    | .ready_for_action =>
      { next_agent := "action", current_state := .action }
    | .action => supervisor_action_branch state.messages state.completed_tasks
    | .info =>
      match state.previous_state.getD .idle with
      | .sharpening => { next_agent := "sharpener", current_state := .sharpening }
      | .action => { next_agent := "action", current_state := .action }
      | _ => { next_agent := "end", current_state := .idle }
    | .completed => supervisor_completed_branch lum
    | .escalation =>
      { next_agent := "escalation", current_state := .escalation }

/-- The reducer declared for `completed_tasks` in schemas.py
(`Annotated[List[str], operator.add]`): a patch that provides the key is
APPENDED to the existing ledger, never substituted for it; an absent key
leaves the ledger alone. -/
def merge_completed_tasks (old : List String)
    (patch : Option (List String)) : List String :=
  match patch with
  | none => old
  | some p => old ++ p

/-! ## Escalation analyzer (escalation.py) -/

/-- The escalation threshold constant. -/
def ESCALATION_THRESHOLD : Nat := 50

/-- The `SIGNAL_WEIGHTS` table. -/
def SIGNAL_WEIGHTS (signal : String) : Nat :=
  if signal = "explicit_request" then 50
  else if signal = "high_frustration" then 30
  else if signal = "medium_frustration" then 15
  else if signal = "repeated_requests" then 25
  else if signal = "complex_issue" then 20
  else if signal = "payment_dispute" then 15
  else if signal = "conversation_length" then 10
  else 0

/-- The fixed stop-word set of `detect_repeated_requests`. -/
def stop_words : List String :=
  ["i", "the", "a", "an", "to", "my", "please", "said", "want", "need",
   "can", "you"]

/-- Whitespace characters for Python `str.split()` with no argument. -/
def is_py_space (c : Char) : Bool :=
  c = ' ' || c = '\t' || c = '\n' || c = '\r' || c = '\x0b' || c = '\x0c'

/-- Accumulator-based splitter behind `py_split_ws`; the first argument
holds the current word's characters in reverse. -/
def split_ws_aux (acc : List Char) : List Char → List String
  | [] => if acc.isEmpty then [] else [String.mk acc.reverse]
  | c :: rest =>
    if is_py_space c then
      if acc.isEmpty then split_ws_aux [] rest
      else String.mk acc.reverse :: split_ws_aux [] rest
    else split_ws_aux (c :: acc) rest

/-- Python `s.split()`: split on whitespace runs, dropping empty pieces. -/
def py_split_ws (s : String) : List String := split_ws_aux [] s.data

/-- `set(msg.split()) - stop_words`: the non-stop-word token set of a
message. -/
def word_set (s : String) : Finset String :=
  ((py_split_ws s).filter fun w => !stop_words.contains w).toFinset

/-- The lowercased contents of the user messages, in order
(`[msg.content.lower() for msg in messages if isinstance(msg, HumanMessage)]`). -/
def user_contents_lower (messages : List Message) : List String :=
  messages.filterMap fun m =>
    match m with
    | .user c => some (py_lower c)
    | _ => none

/-- `count_user_messages`. -/
def count_user_messages (messages : List Message) : Nat :=
  (messages.filter Message.isUser).length

/-- `detect_repeated_requests`: count earlier user messages whose
non-stop-word overlap with the latest user message exceeds the 0.4
ratio.  Pairs where either token set is empty are skipped, as in the
source (`if last_words and prev_words`).  The source compares
`common / min(|A|,|B|) > 0.4` on floats; with the minimum positive this
is exactly `5 * common > 2 * min(|A|,|B|)`, the form used here. -/
def detect_repeated_requests (messages : List Message) : Nat :=
  let user_msgs := user_contents_lower messages
  if user_msgs.length < 2 then 0
  else
    match user_msgs.getLast? with
    | none => 0
    | some last =>
      let last_words := word_set last
      (user_msgs.dropLast.filter fun prev =>
        let prev_words := word_set prev
        decide (last_words.card ≠ 0 ∧ prev_words.card ≠ 0 ∧
          2 * min last_words.card prev_words.card <
            5 * (last_words ∩ prev_words).card)).length

/-- The spec's repeated-request ratio, with the empty-set pairs the source
skips valued 0 (they are never counted either way). -/
def similarity_ratio (a b : Finset String) : ℚ :=
  if a.card = 0 ∨ b.card = 0 then 0
  else ((a ∩ b).card : ℚ) / (min a.card b.card : ℚ)

/-- The sentiment values that open the payment-dispute signal. -/
def sentiment_negative (s : String) : Bool :=
  s = "negative" || s = "very_negative"

/-- Parsed JSON of the escalation LLM analysis (or of the deterministic
keyword fallback, which produces the same fields). -/
structure LlmAnalysis where
  explicit_human_request : Bool
  frustration_level : Int
  issue_complexity : Int
  involves_payment : Bool
  user_sentiment : String
deriving DecidableEq

/-- The slice of the dict `analyze_escalation_need` returns that the
claims are about. -/
structure EscalationResult where
  should_escalate : Bool
  score : Nat
  urgency : String
deriving DecidableEq

/-- The additive scoring block of `analyze_escalation_need`, factored over
the signal values it reads. -/
def score_from_signals (explicit : Bool) (frustration : Int) (repeated : Nat)
    (complexity : Int) (payment_dispute : Bool) (user_message_count : Nat)
    (failed_count : Nat) : Nat :=
  (if explicit then SIGNAL_WEIGHTS "explicit_request" else 0)
  + (if 4 ≤ frustration then SIGNAL_WEIGHTS "high_frustration"
     else if frustration = 3 then SIGNAL_WEIGHTS "medium_frustration" else 0)
  + (if 3 ≤ repeated then SIGNAL_WEIGHTS "repeated_requests" else 0)
  + (if 4 ≤ complexity then SIGNAL_WEIGHTS "complex_issue" else 0)
  + (if payment_dispute then SIGNAL_WEIGHTS "payment_dispute" else 0)
  + (if 10 ≤ user_message_count then SIGNAL_WEIGHTS "conversation_length" else 0)
  + (if 2 ≤ failed_count then 15 else 0)

/-- `analyze_escalation_need`.  `analysis` is the oracle for the LLM
sentiment call (or its keyword fallback); an absent `failed_actions`
argument is the empty list. -/
def analyze_escalation_need (analysis : LlmAnalysis) (messages : List Message)
    (failed_actions : List String) : EscalationResult :=
  if messages.isEmpty then
    { should_escalate := false, score := 0, urgency := "low" }
  else
    let score := score_from_signals analysis.explicit_human_request
      analysis.frustration_level (detect_repeated_requests messages)
      analysis.issue_complexity
      (analysis.involves_payment && sentiment_negative analysis.user_sentiment)
      (count_user_messages messages) failed_actions.length
    { should_escalate := decide (ESCALATION_THRESHOLD ≤ score),
      score := score,
      urgency :=
        if 70 ≤ score then "high"
        else if 50 ≤ score then "medium"
        else "low" }

/-! ## Intent sharpener (intent_sharpener.py) -/

/-- `REQUIRED_FIELDS`. -/
def REQUIRED_FIELDS : List String :=
  ["destination", "departure_date", "return_date"]

/-- The travel-context dict, one `Option` field per dict key the sharpener
touches. -/
structure TravelContext where
  destination : Option String := none
  destination_display : Option String := none
  origin : Option String := none
  origin_display : Option String := none
  departure_date : Option String := none
  return_date : Option String := none
  motivation : Option String := none
  budget_max : Option Int := none
  budget_currency : Option String := none
  transportation_pref : Option String := none
  activity_pref : Option String := none
  accommodation_pref : Option String := none
  travelers : Option Nat := none
  budget_skipped : Bool := false
  collected_fields : List String := []
  current_phase : Nat := 1
  plan_summary : Option String := none
deriving DecidableEq

/-- `create_empty_travel_context` (intent_sharpener.py). -/
def create_empty_travel_context : TravelContext :=
  { destination := none, destination_display := none, origin := none,
    origin_display := none, departure_date := none, return_date := none,
    motivation := none, budget_max := none, budget_currency := some "EUR",
    transportation_pref := none, activity_pref := none,
    accommodation_pref := none, travelers := some 1,
    collected_fields := [], current_phase := 1 }

/-- `check_completion`: which required fields are still missing from
`collected_fields`. -/
def check_completion (ctx : TravelContext) : Bool × List String :=
  let missing := REQUIRED_FIELDS.filter fun f => !ctx.collected_fields.contains f
  (missing.isEmpty, missing)

/-- `if travel_context.get(field) is None: travel_context[field] = default`. -/
def fill_default {α : Type} (v : Option α) (d : Option α) : Option α :=
  if v.isNone then d else v

/-- `apply_smart_defaults`: fill each `SMART_DEFAULTS` key whose current
value is `None`.  The `origin` and `budget_max` defaults are themselves
`None`, so those two assignments change nothing. -/
def apply_smart_defaults (ctx : TravelContext) : TravelContext :=
  { ctx with
    origin := fill_default ctx.origin none,
    motivation := fill_default ctx.motivation (some "general"),
    budget_max := fill_default ctx.budget_max none,
    budget_currency := fill_default ctx.budget_currency (some "EUR"),
    transportation_pref := fill_default ctx.transportation_pref (some "flexible"),
    activity_pref := fill_default ctx.activity_pref (some "flexible"),
    accommodation_pref := fill_default ctx.accommodation_pref (some "hotel"),
    travelers := fill_default ctx.travelers (some 1) }

/-- The `extracted` object of the sharpener's structured-JSON contract;
`none` models a JSON `null` (or an absent key). -/
structure Extraction where
  destination : Option String := none
  origin : Option String := none
  departure_date : Option String := none
  return_date : Option String := none
  motivation : Option String := none
  budget_max : Option Int := none
  budget_currency : Option String := none
  budget_skipped : Option Bool := none
deriving DecidableEq

/-- Append a collected-field name if it is not present yet. -/
def add_collected (l : List String) (f : String) : List String :=
  if l.contains f then l else l ++ [f]

/-- The extraction-merge loop: every non-null extracted value is written
to the context and its field name recorded in `collected_fields`. -/
def merge_extracted (ctx : TravelContext) (e : Extraction) : TravelContext :=
  let c := ctx
  let c := match e.destination with
    | some v =>
      { c with
          destination := some v,
          collected_fields := add_collected c.collected_fields "destination" }
    | none => c
  let c := match e.origin with
    | some v =>
      { c with
          origin := some v,
          collected_fields := add_collected c.collected_fields "origin" }
    | none => c
  let c := match e.departure_date with
    | some v =>
      { c with
          departure_date := some v,
          collected_fields := add_collected c.collected_fields "departure_date" }
    | none => c
  let c := match e.return_date with
    | some v =>
      { c with
          return_date := some v,
          collected_fields := add_collected c.collected_fields "return_date" }
    | none => c
  let c := match e.motivation with
    | some v =>
      { c with
          motivation := some v,
          collected_fields := add_collected c.collected_fields "motivation" }
    | none => c
  let c := match e.budget_max with
    | some v =>
      { c with
          budget_max := some v,
          collected_fields := add_collected c.collected_fields "budget_max" }
    | none => c
  let c := match e.budget_currency with
    | some v =>
      { c with
          budget_currency := some v,
          collected_fields := add_collected c.collected_fields "budget_currency" }
    | none => c
  let c := match e.budget_skipped with
    | some v =>
      { c with
          budget_skipped := v,
          collected_fields := add_collected c.collected_fields "budget_skipped" }
    | none => c
  c

/-- The sharpener's context after a turn's extraction has been merged:
`state.get("travel_context") or create_empty_travel_context()`, the merge
loop, then the explicit budget-skip flag update. -/
def merged_context (tc : Option TravelContext) (e : Extraction) : TravelContext :=
  let ctx0 := tc.getD create_empty_travel_context
  let m := merge_extracted ctx0 e
  if e.budget_skipped = some true then { m with budget_skipped := true } else m

/-- Python truthiness of an optional string. -/
def py_truthy_str : Option String → Bool
  | none => false
  | some s => s ≠ ""

/-- Python truthiness of an optional number. -/
def py_truthy_num : Option Int → Bool
  | none => false
  | some n => n ≠ 0

/-- `x or y` on optional strings. -/
def py_or_str (a b : Option String) : Option String :=
  if py_truthy_str a then a else b

/-- Rendering inside an f-string (`None` for a missing value). -/
def py_show_str : Option String → String
  | none => "None"
  | some s => s

/-- Rendering a number inside an f-string. -/
def py_show_num : Option Int → String
  | none => "None"
  | some n => toString n

/-- `create_plan_summary`.  `budget_currency` is always a string in a
context built from `create_empty_travel_context`, so `getD "EUR"` models
`travel_context.get("budget_currency", "EUR")` faithfully there. -/
def create_plan_summary (ctx : TravelContext) (language : String) : String :=
  let dest := py_or_str ctx.destination_display ctx.destination
  let origin := py_or_str ctx.origin_display ctx.origin
  let currency := ctx.budget_currency.getD "EUR"
  let lines :=
    if language = "tr" then
      ["📍 Destinasyon: " ++ py_show_str dest]
      ++ (if py_truthy_str origin then ["🛫 Kalkış: " ++ py_show_str origin] else [])
      ++ ["📅 Tarih: " ++ py_show_str ctx.departure_date ++ " → "
            ++ py_show_str ctx.return_date]
      ++ (if py_truthy_num ctx.budget_max then
            ["💰 Bütçe: " ++ py_show_num ctx.budget_max ++ " " ++ currency] else [])
      ++ (if py_truthy_str ctx.motivation && !(ctx.motivation == some "general") then
            ["🎯 Amaç: " ++ py_show_str ctx.motivation] else [])
    else
      ["📍 Destination: " ++ py_show_str dest]
      ++ (if py_truthy_str origin then ["🛫 Origin: " ++ py_show_str origin] else [])
      ++ ["📅 Dates: " ++ py_show_str ctx.departure_date ++ " → "
            ++ py_show_str ctx.return_date]
      ++ (if py_truthy_num ctx.budget_max then
            ["💰 Budget: " ++ py_show_num ctx.budget_max ++ " " ++ currency] else [])
      ++ (if py_truthy_str ctx.motivation && !(ctx.motivation == some "general") then
            ["🎯 Purpose: " ++ py_show_str ctx.motivation] else [])
  String.intercalate "\n" lines

/-- Parsed JSON of the sharpener's LLM call; the malformed-output fallback
is the value with empty extraction, `all_required_complete := false` and
the raw text as `response`. -/
structure SharpenerLlm where
  extracted : Extraction
  all_required_complete : Bool
  response : String
deriving DecidableEq

/-- The dict `intent_sharpener_node` returns.  `sharpening_turns = none`
models the completion branch, which omits that key. -/
structure SharpenerOutput where
  response : String
  travel_context : TravelContext
  plan_ready : Bool
  needs_user_input : Bool
  language : String
  sharpening_turns : Option Nat
  current_state : ConversationState
deriving DecidableEq

/-- `intent_sharpener_node`.  The message history only feeds the LLM call,
whose parsed outcome is the `result` oracle; `language` is both the stored
language and `detected_language` (the source overwrites the latter with
the former). -/
def intent_sharpener_node (tc : Option TravelContext) (turns : Nat)
    (language : String) (result : SharpenerLlm) : SharpenerOutput :=
  let ctx1 := merged_context tc result.extracted
  let is_complete1 := (check_completion ctx1).1
  let llm_says_complete := result.all_required_complete
  let ctx2 := if 3 ≤ turns ∧ is_complete1 = false then apply_smart_defaults ctx1 else ctx1
  let is_complete2 := (check_completion ctx2).1
  if is_complete2 || llm_says_complete then
    let ctx3 := apply_smart_defaults ctx2
    let plan_summary := create_plan_summary ctx3 language
    let ctx4 := { ctx3 with plan_summary := some plan_summary }
    let response_text :=
      if plan_summary ≠ "" ∧ py_in "plan" (py_lower result.response) = false then
        if language = "tr" then
          result.response ++ "\n\n📋 **Seyahat Planın:**\n" ++ plan_summary
            ++ "\n\n✅ Aramaya başlayalım mı?"
        else
          result.response ++ "\n\n📋 **Your Travel Plan:**\n" ++ plan_summary
            ++ "\n\n✅ Ready to search?"
      else result.response
    { response := response_text, travel_context := ctx4, plan_ready := true,
      needs_user_input := false, language := language,
      sharpening_turns := none, current_state := .ready_for_action }
  else
    { response := result.response, travel_context := ctx2, plan_ready := false,
      needs_user_input := true, language := language,
      sharpening_turns := some (turns + 1), current_state := .sharpening }

/-! ## Orchestrator routing (orchestrator.py) -/

/-- `route_from_supervisor`: `state.get("next_agent", "end")` — a missing
next-agent value silently defaults to "end". -/
def route_from_supervisor (next_agent : Option String) : String :=
  next_agent.getD "end"

/-- A conditional-edge target: a named graph node, or the END sentinel. -/
inductive GraphTarget where
  | node (name : String)
  | terminal
deriving DecidableEq

/-- The `path_map` of the supervisor's `add_conditional_edges` call in
`build_graph`: exactly five branch values are mapped, everything else has
no entry. -/
def supervisor_edge_map (v : String) : Option GraphTarget :=
  if v = "sharpener" then some (.node "sharpener")
  else if v = "info" then some (.node "info")
  else if v = "action" then some (.node "action")
  else if v = "escalation" then some (.node "escalation")
  else if v = "end" then some .terminal
  else none

/-! ## Spec-side helper notions used by the theorems -/

/-- The eight escalation signals as (fired?, weight) pairs, in the order
the analyzer adds them. -/
def escalation_signal_list (a : LlmAnalysis) (messages : List Message)
    (failed_actions : List String) : List (Bool × Nat) :=
  [(a.explicit_human_request, SIGNAL_WEIGHTS "explicit_request"),
   (decide (4 ≤ a.frustration_level), SIGNAL_WEIGHTS "high_frustration"),
   (decide (a.frustration_level = 3), SIGNAL_WEIGHTS "medium_frustration"),
   (decide (3 ≤ detect_repeated_requests messages), SIGNAL_WEIGHTS "repeated_requests"),
   (decide (4 ≤ a.issue_complexity), SIGNAL_WEIGHTS "complex_issue"),
   (a.involves_payment && sentiment_negative a.user_sentiment, SIGNAL_WEIGHTS "payment_dispute"),
   (decide (10 ≤ count_user_messages messages), SIGNAL_WEIGHTS "conversation_length"),
   (decide (2 ≤ failed_actions.length), 15)]

/-- The claim's literal reading of "the latest message is assistant text
without a tool call": an AI message with nonempty content and no tool
calls.  The source's `last_ai_has_content` check accepts user and
tool-result messages as well. -/
def latest_is_assistant_text_without_tool_call (messages : List Message) : Bool :=
  match messages.getLast? with
  | some (.assistant c tc) => c ≠ "" && !tc
  | _ => false

/-- Failing input for the Completed-phase ledger-reset claim: a completed
conversation with a non-empty ledger and a "book another" message. -/
def c1_failing_state : AgentState :=
  { messages := [.user "Great, can we book another trip"],
    current_state := .completed, completed_tasks := ["booking_completed"] }

/-- Counterexample input for the Action-phase routing claim: the latest
message is the tool result itself (nonempty content, no tool-call
attribute) and `action_completed` is already on the ledger. -/
def c4_counterexample_state : AgentState :=
  { messages := [.user "hi", .tool "flight results"],
    current_state := .action, completed_tasks := ["action_completed"] }

/-! ## Helper lemmas -/

/-- `take_last` is idempotent. -/
theorem take_last_idem {α : Type} (n : Nat) (l : List α) :
    take_last n (take_last n l) = take_last n l := by
  unfold take_last
  rw [List.length_drop]
  have h : l.length - (l.length - n) - n = 0 := by omega
  rw [h, List.drop_zero]

/-- The weight table evaluated at the seven signal names. -/
theorem SIGNAL_WEIGHTS_eval :
    SIGNAL_WEIGHTS "explicit_request" = 50 ∧
    SIGNAL_WEIGHTS "high_frustration" = 30 ∧
    SIGNAL_WEIGHTS "medium_frustration" = 15 ∧
    SIGNAL_WEIGHTS "repeated_requests" = 25 ∧
    SIGNAL_WEIGHTS "complex_issue" = 20 ∧
    SIGNAL_WEIGHTS "payment_dispute" = 15 ∧
    SIGNAL_WEIGHTS "conversation_length" = 10 := by decide

/-! ## C2: determine_phase precedence -/

/-- C2: `determine_phase` is a pure function of the message history and the
completed-task ledger, and its result is the first-match evaluation of the
spec's seven precedence rules (empty history, booking completed,
confirmation+selection_presented, selection+results_presented,
search-initiated-without-results, results-awaiting-selection, default
Search). -/
theorem C2_determine_phase_precedence (messages : List Message)
    (completed_tasks : List String) :
    determine_phase messages completed_tasks =
      first_match (determine_phase_rules messages completed_tasks) .search := by
  rfl

/-! ## C7: selection detector -/

/-- C7: the selection detector looks only at the last three messages, acts
only on the first user message of that window scanned newest-first
(returning none when there is none, and none when that message matches no
rule), and within the message applies the number rule, then the
diacritic-normalized ordinal rule, then the preference-phrase rule; the
literal message "2" yields a number-2 selection, ordinal words yield their
table position, and preference phrases yield preference 1. -/
theorem C7_selection_detector :
    (∀ messages : List Message,
        detect_user_selection messages =
          detect_user_selection (take_last 3 messages)) ∧
    (∀ messages : List Message,
        first_user_content ((take_last 3 messages).reverse) = none →
          detect_user_selection messages = none) ∧
    (∀ (messages : List Message) (raw : String),
        first_user_content ((take_last 3 messages).reverse) = some raw →
          detect_user_selection messages = selection_in_content (py_lower raw)) ∧
    (∀ (content : String) (n : Nat),
        find_number_sel none content.toList = some n →
          selection_in_content content = some (.number n)) ∧
    (∀ content : String,
        find_number_sel none content.toList = none →
        find_ordinal content = none →
        preference_keywords.any (fun k => py_in k content) = false →
          selection_in_content content = none) ∧
    (detect_user_selection [.user "2"] = some (.number 2)) ∧
    (selection_in_content "ikinci olsun" = some (.ordinal 2)) ∧
    (selection_in_content "üçüncü lütfen" = some (.ordinal 3)) ∧
    (selection_in_content "en ucuz olsun" = some (.preference 1)) := by
  refine ⟨?_, ?_, ?_, ?_, ?_, by decide, by decide, by decide, by decide⟩
  · intro messages
    simp only [detect_user_selection, take_last_idem]
  · intro messages h
    simp only [detect_user_selection, h]
  · intro messages raw h
    simp only [detect_user_selection, h]
  · intro content n h
    simp only [selection_in_content, h]
  · intro content h1 h2 h3
    simp only [selection_in_content, h1, h2, h3, Bool.false_eq_true, if_false]

/-- C7 witness: unrelated text fires no rule of the detector and yields
none. -/
theorem C7_selection_detector_witness :
    selection_in_content "hello there" = none :=
  C7_selection_detector.2.2.2.2.1 "hello there" (by decide) (by decide) (by decide)

/-! ## C8: unrecognized next-handler values -/

/-- C8 counterexample: a router output with a missing next-handler value —
not one of the five recognized handlers — is silently routed to the END
target by `route_from_supervisor`'s `"end"` default; no error is raised
anywhere in the repository's code. -/
theorem C8_counterexample :
    route_from_supervisor none = "end" ∧
    supervisor_edge_map (route_from_supervisor none) = some .terminal := by
  decide

/-- C8 (amended): a missing next-handler silently defaults to "end"; any
present next-handler string is forwarded verbatim, and the supervisor's
conditional-edge map defines a target for exactly the five recognized
handler values — the repository itself neither raises an explicit error
for an unrecognized value nor maps it to end. -/
theorem C8_unrecognized_handler_amended :
    route_from_supervisor none = "end" ∧
    (∀ v : String, route_from_supervisor (some v) = v) ∧
    (∀ v : String, v ∉ ["sharpener", "info", "action", "escalation", "end"] →
        supervisor_edge_map v = none) ∧
    (∀ v : String, v ∈ ["sharpener", "info", "action", "escalation", "end"] →
        supervisor_edge_map v ≠ none) := by
  refine ⟨rfl, fun v => rfl, ?_, ?_⟩
  · intro v h
    simp only [List.mem_cons, List.not_mem_nil, or_false, not_or] at h
    obtain ⟨h1, h2, h3, h4, h5⟩ := h
    simp [supervisor_edge_map, h1, h2, h3, h4, h5]
  · intro v h
    simp only [List.mem_cons, List.not_mem_nil, or_false] at h
    rcases h with h | h | h | h | h <;> subst h <;> decide

/-- C8 witness: the unrecognized value "tools" (a node name that is not a
router handler value) has no entry in the supervisor's edge map. -/
theorem C8_unrecognized_handler_witness :
    supervisor_edge_map "tools" = none :=
  C8_unrecognized_handler_amended.2.2.1 "tools" (by decide)

/-! ## C10: routing with no user message -/

/-- C10: whenever the history holds no user message the supervisor returns
next handler end and resets the phase to Idle, whatever phase the
conversation was in. -/
theorem C10_router_no_user_message (st : AgentState)
    (intent : Option IntentResult)
    (h : ∀ msg ∈ st.messages, msg.isUser = false) :
    (supervisor_node st intent).next_agent = "end" ∧
    (supervisor_node st intent).current_state = .idle := by
  have hfind : st.messages.reverse.find? Message.isUser = none := by
    rw [List.find?_eq_none]
    intro msg hm
    simp [h msg (List.mem_reverse.mp hm)]
  have hl : last_user_message st.messages = none := by
    simp [last_user_message, first_user_content, hfind]
  simp [supervisor_node, hl]

/-- C10 witness: a state in phase Action whose only message is assistant
text routes to end with phase Idle. -/
theorem C10_router_no_user_message_witness :
    (supervisor_node
        { messages := [Message.assistant "hello" false],
          current_state := .action } none).next_agent = "end" ∧
    (supervisor_node
        { messages := [Message.assistant "hello" false],
          current_state := .action } none).current_state = .idle :=
  C10_router_no_user_message _ none (by decide)

/-! ## C1: Completed-phase "book another" ledger reset -/

/-- C1: at the failing input (phase Completed, ledger ["booking_completed"],
user message containing "another") the supervisor does route to the action
handler with phase Action, but the `completed_tasks := []` patch it emits
goes through the `operator.add` reducer of schemas.py, so the merged
ledger afterwards still equals ["booking_completed"] — not the empty set
the claim (and the source's own "Reset" comment) require. -/
theorem C1_completed_reset_lost :
    (supervisor_node c1_failing_state none).next_agent = "action" ∧
    (supervisor_node c1_failing_state none).current_state = .action ∧
    (supervisor_node c1_failing_state none).completed_tasks = some [] ∧
    merge_completed_tasks c1_failing_state.completed_tasks
        (supervisor_node c1_failing_state none).completed_tasks =
      ["booking_completed"] ∧
    ["booking_completed"] ≠ ([] : List String) := by
  decide

/-! ## C4: Action-phase routing -/

/-- C4 counterexample: in phase Action with ledger ["action_completed"],
latest message a tool result and a tool result within the last five
messages, the claim's rule (2) applies (there is a tool-result and the
latest message is not assistant text without a tool call), so the claim
requires re-entering Action with phase Action; the code instead returns
next handler end with phase Completed, because its content check also
accepts the tool message itself. -/
theorem C4_action_routing_counterexample :
    c4_counterexample_state.completed_tasks.contains "results_presented" = false ∧
    (take_last 5 c4_counterexample_state.messages).any Message.isTool = true ∧
    latest_is_assistant_text_without_tool_call c4_counterexample_state.messages = false ∧
    (supervisor_node c4_counterexample_state none).next_agent = "end" ∧
    (supervisor_node c4_counterexample_state none).current_state = .completed := by
  decide

/-- C4 (amended): for every state in phase Action whose history contains a
user message, the router decides in order: (1) results_presented on the
ledger → end, phase stays Action; (2) else a tool-result among the last
five messages and the latest message lacking plain content (nonempty text
and no tool calls, any role) → re-enter Action; (3) else action_completed
on the ledger and the latest message carrying plain content → end with
phase Completed; (4) otherwise re-enter Action. -/
theorem C4_action_routing_amended (st : AgentState)
    (intent : Option IntentResult)
    (hphase : st.current_state = .action)
    (huser : last_user_message st.messages ≠ none) :
    (st.completed_tasks.contains "results_presented" = true →
        (supervisor_node st intent).next_agent = "end" ∧
        (supervisor_node st intent).current_state = .action) ∧
    (st.completed_tasks.contains "results_presented" = false →
      (take_last 5 st.messages).any Message.isTool = true →
      last_message_has_plain_content st.messages = false →
        (supervisor_node st intent).next_agent = "action" ∧
        (supervisor_node st intent).current_state = .action) ∧
    (st.completed_tasks.contains "results_presented" = false →
      ((take_last 5 st.messages).any Message.isTool = false ∨
        last_message_has_plain_content st.messages = true) →
      st.completed_tasks.contains "action_completed" = true →
      last_message_has_plain_content st.messages = true →
        (supervisor_node st intent).next_agent = "end" ∧
        (supervisor_node st intent).current_state = .completed) ∧
    (st.completed_tasks.contains "results_presented" = false →
      ((take_last 5 st.messages).any Message.isTool = false ∨
        last_message_has_plain_content st.messages = true) →
      (st.completed_tasks.contains "action_completed" = false ∨
        last_message_has_plain_content st.messages = false) →
        (supervisor_node st intent).next_agent = "action" ∧
        (supervisor_node st intent).current_state = .action) := by
  obtain ⟨lum, hlum⟩ := Option.ne_none_iff_exists'.mp huser
  have hsup : supervisor_node st intent =
      supervisor_action_branch st.messages st.completed_tasks := by
    simp only [supervisor_node, hlum, hphase]
  rw [hsup]
  simp only [supervisor_action_branch]
  cases hr : st.completed_tasks.contains "results_presented" <;>
    cases ha : (take_last 5 st.messages).any Message.isTool <;>
      cases hp : last_message_has_plain_content st.messages <;>
        cases hc : st.completed_tasks.contains "action_completed" <;>
          simp

/-- C4 witness: with results_presented on the ledger and a user message
present, the router ends the turn and stays in phase Action. -/
theorem C4_action_routing_witness :
    (supervisor_node
        { messages := [Message.user "hi"], current_state := .action,
          completed_tasks := ["results_presented"] } none).next_agent = "end" ∧
    (supervisor_node
        { messages := [Message.user "hi"], current_state := .action,
          completed_tasks := ["results_presented"] } none).current_state = .action :=
  (C4_action_routing_amended _ none rfl (by decide)).1 (by decide)

/-! ## C3: escalation scoring -/

/-- C3: for non-empty histories the escalation score is the sum of the
independently fired non-negative signal weights (explicit request 50,
frustration at 4-5 adds 30, frustration 3 adds 15, three repeated requests
add 25, complexity at 4-5 adds 20, payment with negative sentiment adds
15, ten user messages add 10, two failed actions add 15); shouldEscalate
holds exactly when the score reaches 50; urgency is high from 70, medium
on [50,70), low below 50; and the score is monotone non-decreasing in
every signal. -/
theorem C3_escalation_score :
    (∀ (a : LlmAnalysis) (messages : List Message) (failed_actions : List String),
        messages ≠ [] →
        (analyze_escalation_need a messages failed_actions).score =
          ((escalation_signal_list a messages failed_actions).map
            fun p => if p.1 then p.2 else 0).sum) ∧
    (∀ (a : LlmAnalysis) (messages : List Message) (failed_actions : List String),
        (analyze_escalation_need a messages failed_actions).should_escalate = true ↔
          50 ≤ (analyze_escalation_need a messages failed_actions).score) ∧
    (∀ (a : LlmAnalysis) (messages : List Message) (failed_actions : List String),
        ((analyze_escalation_need a messages failed_actions).urgency = "high" ↔
          70 ≤ (analyze_escalation_need a messages failed_actions).score) ∧
        ((analyze_escalation_need a messages failed_actions).urgency = "medium" ↔
          50 ≤ (analyze_escalation_need a messages failed_actions).score ∧
            (analyze_escalation_need a messages failed_actions).score < 70) ∧
        ((analyze_escalation_need a messages failed_actions).urgency = "low" ↔
          (analyze_escalation_need a messages failed_actions).score < 50)) ∧
    (∀ (e₁ e₂ p₁ p₂ : Bool) (f₁ f₂ c₁ c₂ : Int) (r₁ r₂ u₁ u₂ k₁ k₂ : Nat),
        (e₁ = true → e₂ = true) → f₁ ≤ f₂ → r₁ ≤ r₂ → c₁ ≤ c₂ →
        (p₁ = true → p₂ = true) → u₁ ≤ u₂ → k₁ ≤ k₂ →
        score_from_signals e₁ f₁ r₁ c₁ p₁ u₁ k₁ ≤
          score_from_signals e₂ f₂ r₂ c₂ p₂ u₂ k₂) := by
  obtain ⟨w1, w2, w3, w4, w5, w6, w7⟩ := SIGNAL_WEIGHTS_eval
  refine ⟨?_, ?_, ?_, ?_⟩
  · intro a messages failed_actions h
    cases messages with
    | nil => exact absurd rfl h
    | cons m rest =>
      simp only [analyze_escalation_need, List.isEmpty_cons, Bool.false_eq_true,
        if_false, score_from_signals, escalation_signal_list, List.map_cons,
        List.map_nil, List.sum_cons, List.sum_nil, decide_eq_true_eq,
        w1, w2, w3, w4, w5, w6, w7]
      split_ifs <;> omega
  · intro a messages failed_actions
    cases messages with
    | nil => simp [analyze_escalation_need]
    | cons m rest =>
      simp [analyze_escalation_need, ESCALATION_THRESHOLD]
  · intro a messages failed_actions
    cases messages with
    | nil => simp [analyze_escalation_need]
    | cons m rest =>
      simp only [analyze_escalation_need, List.isEmpty_cons, Bool.false_eq_true,
        if_false]
      split_ifs <;> (simp_all; try omega)
  · intro e₁ e₂ p₁ p₂ f₁ f₂ c₁ c₂ r₁ r₂ u₁ u₂ k₁ k₂ he hf hr hc hp hu hk
    unfold score_from_signals
    rw [w1, w2, w3, w4, w5, w6, w7]
    refine Nat.add_le_add (Nat.add_le_add (Nat.add_le_add (Nat.add_le_add
      (Nat.add_le_add (Nat.add_le_add ?_ ?_) ?_) ?_) ?_) ?_) ?_
    · cases e₁ with
      | false => exact Nat.zero_le _
      | true => rw [he rfl]
    · split_ifs <;> omega
    · split_ifs <;> omega
    · split_ifs <;> omega
    · cases p₁ with
      | false => exact Nat.zero_le _
      | true => rw [hp rfl]
    · split_ifs <;> omega
    · split_ifs <;> omega

/-- C3 witness: a concrete conversation with an explicit human request and
frustration level 3 satisfies the fired-weight sum identity. -/
theorem C3_escalation_score_witness :
    (analyze_escalation_need
        { explicit_human_request := true, frustration_level := 3,
          issue_complexity := 1, involves_payment := false,
          user_sentiment := "neutral" }
        [Message.user "i want to speak to a human"] []).score =
      ((escalation_signal_list
          { explicit_human_request := true, frustration_level := 3,
            issue_complexity := 1, involves_payment := false,
            user_sentiment := "neutral" }
          [Message.user "i want to speak to a human"] []).map
        fun p => if p.1 then p.2 else 0).sum :=
  C3_escalation_score.1 _ _ _ (by decide)

/-! ## C9: repeated-request ratio -/

/-- The integer guard of `detect_repeated_requests` agrees with the exact
rational ratio comparison. -/
theorem ratio_guard_eq (a b : Finset String) :
    decide (a.card ≠ 0 ∧ b.card ≠ 0 ∧
        2 * min a.card b.card < 5 * (a ∩ b).card)
      = decide ((2 : ℚ) / 5 < similarity_ratio a b) := by
  rw [decide_eq_decide]
  unfold similarity_ratio
  by_cases ha : a.card = 0
  · simp [ha]
    norm_num
  · by_cases hb : b.card = 0
    · simp [ha, hb]
      norm_num
    · rw [if_neg (by tauto)]
      have hmin : (0 : ℚ) < min (a.card : ℚ) (b.card : ℚ) := by
        have h1 : 0 < a.card := Nat.pos_of_ne_zero ha
        have h2 : 0 < b.card := Nat.pos_of_ne_zero hb
        simp only [lt_min_iff]
        constructor <;> exact_mod_cast (by assumption)
      rw [div_lt_div_iff₀ (by norm_num) hmin]
      constructor
      · rintro ⟨-, -, hlt⟩
        have hcast : ((2 * min a.card b.card : ℕ) : ℚ) <
            ((5 * (a ∩ b).card : ℕ) : ℚ) := by exact_mod_cast hlt
        push_cast at hcast
        linarith
      · intro hlt
        refine ⟨ha, hb, ?_⟩
        have hcast : ((2 * min a.card b.card : ℕ) : ℚ) <
            ((5 * (a ∩ b).card : ℕ) : ℚ) := by push_cast; linarith
        exact_mod_cast hcast

/-- C9: the repeated-request count equals the number of earlier user
messages whose stop-word-stripped token-set ratio with the latest user
message exceeds 0.4 (the ratio of a pair with an empty token set being 0);
the ratio is 1 whenever the two messages share one identical nonempty
token set, and 0 for disjoint token sets — a disjoint prior message is
never counted. -/
theorem C9_repeated_requests :
    (∀ (messages : List Message) (last : String),
        (user_contents_lower messages).getLast? = some last →
        detect_repeated_requests messages =
          ((user_contents_lower messages).dropLast.filter fun prev =>
            decide ((2 : ℚ) / 5 <
              similarity_ratio (word_set last) (word_set prev))).length) ∧
    (∀ messages : List Message,
        (user_contents_lower messages).getLast? = none →
        detect_repeated_requests messages = 0) ∧
    (∀ s t : String, word_set s = word_set t → (word_set s).Nonempty →
        similarity_ratio (word_set s) (word_set t) = 1) ∧
    (∀ s t : String, word_set s ∩ word_set t = ∅ →
        similarity_ratio (word_set s) (word_set t) = 0 ∧
          ¬ ((2 : ℚ) / 5 < similarity_ratio (word_set s) (word_set t))) := by
  refine ⟨?_, ?_, ?_, ?_⟩
  · intro messages last hL
    simp only [detect_repeated_requests, hL]
    by_cases hlen : (user_contents_lower messages).length < 2
    · rw [if_pos hlen]
      have hne : user_contents_lower messages ≠ [] := by
        intro h
        rw [h] at hL
        exact Option.noConfusion hL
      have hlen1 : (user_contents_lower messages).length = 1 := by
        have := List.length_pos.mpr hne
        omega
      obtain ⟨a, ha⟩ := List.length_eq_one.mp hlen1
      rw [ha]
      rfl
    · rw [if_neg hlen]
      exact congrArg List.length
        (List.filter_congr fun prev _ =>
          ratio_guard_eq (word_set last) (word_set prev))
  · intro messages hL
    have hnil : user_contents_lower messages = [] := by
      cases hu : user_contents_lower messages with
      | nil => rfl
      | cons x xs =>
        rw [hu] at hL
        simp [List.getLast?] at hL
    simp [detect_repeated_requests, hnil]
  · intro s t heq hne
    have hc : (word_set s).card ≠ 0 :=
      Nat.pos_iff_ne_zero.mp (Finset.card_pos.mpr hne)
    unfold similarity_ratio
    rw [← heq, if_neg (by tauto), Finset.inter_self, min_self]
    exact div_self (by exact_mod_cast hc)
  · intro s t hd
    have h0 : ((word_set s) ∩ (word_set t)).card = 0 := by
      rw [hd]; exact Finset.card_empty
    have hz : similarity_ratio (word_set s) (word_set t) = 0 := by
      unfold similarity_ratio
      split_ifs with h
      · rfl
      · rw [h0]
        simp
    exact ⟨hz, by rw [hz]; norm_num⟩

/-- C9 witness: two identical messages with a nonempty non-stop-word token
set have ratio exactly 1. -/
theorem C9_repeated_requests_witness :
    similarity_ratio (word_set "refund my booking now")
      (word_set "refund my booking now") = 1 :=
  C9_repeated_requests.2.2.1 "refund my booking now" "refund my booking now"
    rfl (by decide)

/-! ## C5 and C6: sharpener completion and turn-limit rules -/

/-- Emptiness of the kept-out elements is the conjunction of the predicate
over the list. -/
theorem filter_not_isEmpty_eq_all {α : Type} (p : α → Bool) (l : List α) :
    (l.filter fun x => !p x).isEmpty = l.all p := by
  induction l with
  | nil => rfl
  | cons x xs ih =>
    cases hx : p x
    · simp [List.filter_cons, hx]
    · simp [List.filter_cons, hx, ih]

/-- `check_completion` only reads `collected_fields`, so it evaluates to
the conjunction of the three required-field membership tests. -/
theorem check_completion_fst (ctx : TravelContext) :
    (check_completion ctx).1 =
      REQUIRED_FIELDS.all fun f => ctx.collected_fields.contains f :=
  filter_not_isEmpty_eq_all _ _

/-- Filling a default twice is the same as filling it once. -/
theorem fill_default_idem {α : Type} (v d : Option α) :
    fill_default (fill_default v d) d = fill_default v d := by
  cases v <;> cases d <;> rfl

/-- `apply_smart_defaults` is idempotent. -/
theorem apply_smart_defaults_idem (ctx : TravelContext) :
    apply_smart_defaults (apply_smart_defaults ctx) = apply_smart_defaults ctx := by
  cases ctx
  simp [apply_smart_defaults, fill_default_idem]

/-- The turn-limit defaulting pass cannot change the completion check:
`apply_smart_defaults` leaves `collected_fields` alone. -/
theorem check_completion_turn_limit (ctx : TravelContext) (turns : Nat) :
    (check_completion
        (if 3 ≤ turns ∧ (check_completion ctx).1 = false
          then apply_smart_defaults ctx else ctx)).1 =
      (check_completion ctx).1 := by
  split_ifs <;> rfl

/-- Applying defaults after the optional turn-limit defaulting pass equals
applying them once to the merged context. -/
theorem asd_turn_limit (ctx : TravelContext) (turns : Nat) :
    apply_smart_defaults
        (if 3 ≤ turns ∧ (check_completion ctx).1 = false
          then apply_smart_defaults ctx else ctx) =
      apply_smart_defaults ctx := by
  split_ifs with h
  · exact apply_smart_defaults_idem ctx
  · rfl

/-- C5: a sharpener turn completes exactly when the three required fields
are all in the merged context's collectedFields or the model reports
allRequiredComplete; on completion it returns the defaults-applied context
with the plan summary stored, planReady true, needsUserInput false and
state ReadyForAction; otherwise it increments sharpeningTurns by exactly
one, sets needsUserInput true and stays in Sharpening. -/
theorem C5_sharpener_turn (tc : Option TravelContext) (turns : Nat)
    (language : String) (result : SharpenerLlm)
    (m : TravelContext) (hm : m = merged_context tc result.extracted)
    (out : SharpenerOutput)
    (hout : out = intent_sharpener_node tc turns language result) :
    (out.current_state = .ready_for_action ↔
      (REQUIRED_FIELDS.all (fun f => m.collected_fields.contains f) = true ∨
        result.all_required_complete = true)) ∧
    ((REQUIRED_FIELDS.all (fun f => m.collected_fields.contains f) = true ∨
        result.all_required_complete = true) →
      out.plan_ready = true ∧ out.needs_user_input = false ∧
      out.sharpening_turns = none ∧
      out.travel_context =
        { apply_smart_defaults m with
            plan_summary :=
              some (create_plan_summary (apply_smart_defaults m) language) }) ∧
    (¬ (REQUIRED_FIELDS.all (fun f => m.collected_fields.contains f) = true ∨
        result.all_required_complete = true) →
      out.plan_ready = false ∧ out.needs_user_input = true ∧
      out.sharpening_turns = some (turns + 1) ∧
      out.current_state = .sharpening) := by
  subst hm
  subst hout
  simp only [intent_sharpener_node]
  rw [asd_turn_limit, check_completion_turn_limit]
  cases hck : (check_completion (merged_context tc result.extracted)).1 <;>
    cases hllm : result.all_required_complete
  all_goals
    have hcka :=
      (check_completion_fst (merged_context tc result.extracted)).symm.trans hck
    simp at hcka
    simp [hcka]
    try exact hcka

/-- C5 witness: with nothing extracted and the model not reporting
completion, the first sharpener turn stays in Sharpening with the turn
counter at one. -/
theorem C5_sharpener_turn_witness :
    (intent_sharpener_node none 0 "en"
        { extracted := {}, all_required_complete := false,
          response := "tell me more" }).plan_ready = false ∧
    (intent_sharpener_node none 0 "en"
        { extracted := {}, all_required_complete := false,
          response := "tell me more" }).needs_user_input = true ∧
    (intent_sharpener_node none 0 "en"
        { extracted := {}, all_required_complete := false,
          response := "tell me more" }).sharpening_turns = some 1 ∧
    (intent_sharpener_node none 0 "en"
        { extracted := {}, all_required_complete := false,
          response := "tell me more" }).current_state = .sharpening :=
  (C5_sharpener_turn none 0 "en" _ _ rfl _ rfl).2.2 (by decide)

/-- C6: when the turn limit is reached and completion fails both ways, the
defaulting pass fills only optional fields — the three required fields and
the collected-field ledger are untouched — and the turn still ends in
Sharpening with planReady false, needsUserInput true and the turn counter
incremented. -/
theorem C6_turn_limit_defaults :
    (∀ ctx : TravelContext,
        (apply_smart_defaults ctx).destination = ctx.destination ∧
        (apply_smart_defaults ctx).departure_date = ctx.departure_date ∧
        (apply_smart_defaults ctx).return_date = ctx.return_date ∧
        (apply_smart_defaults ctx).collected_fields = ctx.collected_fields) ∧
    (∀ (tc : Option TravelContext) (turns : Nat) (language : String)
        (result : SharpenerLlm),
        3 ≤ turns →
        REQUIRED_FIELDS.all
            (fun f =>
              (merged_context tc result.extracted).collected_fields.contains f) =
          false →
        result.all_required_complete = false →
        (intent_sharpener_node tc turns language result).current_state =
          .sharpening ∧
        (intent_sharpener_node tc turns language result).plan_ready = false ∧
        (intent_sharpener_node tc turns language result).needs_user_input = true ∧
        (intent_sharpener_node tc turns language result).sharpening_turns =
          some (turns + 1) ∧
        (intent_sharpener_node tc turns language result).travel_context =
          apply_smart_defaults (merged_context tc result.extracted)) := by
  refine ⟨fun ctx => ⟨rfl, rfl, rfl, rfl⟩, ?_⟩
  intro tc turns language result h3 hall hllm
  have hck : (check_completion (merged_context tc result.extracted)).1 = false := by
    rw [check_completion_fst]
    exact hall
  simp only [intent_sharpener_node]
  rw [check_completion_turn_limit, hck, hllm]
  simp [h3]

/-- C6 witness: an empty extraction on turn 3 keeps the required fields
empty, stays in Sharpening and moves the counter to 4, with only optional
fields defaulted. -/
theorem C6_turn_limit_defaults_witness :
    (intent_sharpener_node none 3 "en"
        { extracted := {}, all_required_complete := false,
          response := "still need info" }).current_state = .sharpening ∧
    (intent_sharpener_node none 3 "en"
        { extracted := {}, all_required_complete := false,
          response := "still need info" }).plan_ready = false ∧
    (intent_sharpener_node none 3 "en"
        { extracted := {}, all_required_complete := false,
          response := "still need info" }).needs_user_input = true ∧
    (intent_sharpener_node none 3 "en"
        { extracted := {}, all_required_complete := false,
          response := "still need info" }).sharpening_turns = some 4 ∧
    (intent_sharpener_node none 3 "en"
        { extracted := {}, all_required_complete := false,
          response := "still need info" }).travel_context =
      apply_smart_defaults
        (merged_context none
          ({ extracted := {}, all_required_complete := false,
             response := "still need info" } : SharpenerLlm).extracted) :=
  C6_turn_limit_defaults.2 none 3 "en" _ (by decide) (by decide) rfl

end ActionFlow
